import Mathlib

/-!
Verification of the xpath-agent service layer (`src/main.py`).

The file shallowly embeds the four FastAPI route handlers of `main.py` —
`generate_xpath`, `analyze_html`, `execute_tests` and
`generate_test_scenarios` — as pure Lean functions.  Calls made by the
handlers to external collaborators (the deterministic generator
`SimpleXPathGenerator`, the HTML parser, the AI agent, the test executor)
are represented by their outcomes: either a returned value of the shape
the handler reads from it, or a raised exception.  Collaborator behaviour
that is not part of `src/` is modelled from the specification and marked
as such in its doc comment.
-/

set_option autoImplicit false

namespace XPathAgentService

/-- Result of an HTTP route handler: a returned value, or a raised
`HTTPException(status_code, detail)`. -/
inductive HttpOutcome (α : Type) where
  | ok (value : α)
  | httpError (status : Nat) (detail : String)
  deriving DecidableEq, Repr

/-- The fields of `XPathRequest` (`models/request_models.py`) that
`src/main.py` reads from the request object. -/
structure XPathRequest where
  html_content : String
  target_description : String
  element_type : Option String := none
  additional_context : Option String := none
  deriving DecidableEq, Repr

/-- The dict returned by `SimpleXPathGenerator.generate_xpath` or by the
agent's `generate_xpath`, restricted to the keys `src/main.py` reads.
Keys accessed through `dict.get` may be absent and are `Option`-valued. -/
structure GenResult where
  xpath_locators : List String
  confidence_scores : List Rat
  alternative_locators : Option (List String) := none
  reasoning : Option String := none
  success : Option Bool := none
  deriving DecidableEq, Repr

/-- Outcome of calling the deterministic generator on a request: a
returned dict, or a raised exception carrying `str(e)`. -/
inductive GenOutcome where
  | ok (result : GenResult)
  | raise (msg : String)
  deriving DecidableEq, Repr

/-- Whether the generator call raised. -/
def GenOutcome.isRaise : GenOutcome → Bool
  | .ok _ => false
  | .raise _ => true

/-- Outcome of the body of the agent branch in `generate_xpath`
(the `parse_html` call followed by `xpath_agent.generate_xpath`):
a returned dict, or a raised exception carrying `str(ai_error)`. -/
inductive AgentOutcome where
  | ok (result : GenResult)
  | raise (msg : String)
  deriving DecidableEq, Repr

/-- `XPathResponse` (`models/request_models.py`) exactly as constructed
at the two return sites of `generate_xpath` in `src/main.py`. -/
structure XPathResponse where
  xpath_locators : List String
  confidence_scores : List Rat
  alternative_locators : List String
  reasoning : String
  success : Bool
  deriving DecidableEq, Repr

/-- The `/generate-xpath` handler, `src/main.py` lines 179-221,
instrumented with a flag (second component) recording whether the
AI-agent fallback branch was entered.  `simpleGen` abstracts the call to
`SimpleXPathGenerator.generate_xpath` on this request and `xpath_agent`
is the module-level agent (`none` models the Python `None` set when
agent construction failed). -/
def generate_xpath_run (_request : XPathRequest) (simpleGen : GenOutcome)
    (xpath_agent : Option AgentOutcome) : HttpOutcome XPathResponse × Bool :=
  match simpleGen with
  | .ok result =>
      (.ok { xpath_locators := result.xpath_locators
             confidence_scores := result.confidence_scores
             alternative_locators := result.alternative_locators.getD []
             reasoning := result.reasoning.getD ""
             success := result.success.getD true }, false)
  | .raise e =>
      match xpath_agent with
      | some agentCall =>
          match agentCall with
          | .ok result =>
              (.ok { xpath_locators := result.xpath_locators
                     confidence_scores := result.confidence_scores
                     alternative_locators := result.alternative_locators.getD []
                     reasoning := result.reasoning.getD ""
                     success := true }, true)
          | .raise ai_error =>
              (.httpError 500 ("Agent error: " ++ ai_error), true)
      | none => (.httpError 500 ("XPath generation error: " ++ e), false)

/-- The `/generate-xpath` handler's HTTP outcome. -/
def generate_xpath (request : XPathRequest) (simpleGen : GenOutcome)
    (xpath_agent : Option AgentOutcome) : HttpOutcome XPathResponse :=
  (generate_xpath_run request simpleGen xpath_agent).1

/-- Modelled from the spec: the NoMatch result of
`SimpleXPathGenerator.generate_xpath` (`simple_main.py`, absent from
`src/`).  Spec section 7: NoMatch is "surfaced as `success=false` with
empty primary locator and an explanatory reasoning string, not as an
exception"; section 4.3: "false (with empty primary)". -/
def noMatchResult (reasoning : String) : GenResult :=
  { xpath_locators := []
    confidence_scores := []
    alternative_locators := some []
    reasoning := some reasoning
    success := some false }

/-- One entry of `analysis['interactive_elements']`, restricted to the
keys `src/main.py` reads.  `Option` marks keys read through `dict.get`,
which may be absent from the dict. -/
structure ElementRecord where
  tag : String
  text : Option String := none
  id : Option String := none
  deriving DecidableEq, Repr

/-- `element.get('text', element['tag'])` in `src/main.py`: the `text`
value when the key is present (even when it is the empty string), the
tag name only when the key is absent. -/
def ElementRecord.display (e : ElementRecord) : String :=
  e.text.getD e.tag

/-- Python truthiness of `element.get('id')`: the key is present and its
string value is non-empty. -/
def ElementRecord.truthyId (e : ElementRecord) : Bool :=
  match e.id with
  | some s => s != ""
  | none => false

/-- Modelled from the spec: an entry of `analysis['interactive_elements']`
as produced by the classifier (`utils/html_parser.py`, absent from
`src/`).  Spec section 3: every ClassifiedElement carries "a computed
display text (trimmed, first non-empty of: explicit text, `value`
attribute, `placeholder` attribute)" — an attribute that is always
present and may be the empty string — so the record's `text` key is
always set. -/
def classifiedElement (tag : String) (displayText : String)
    (id : Option String) : ElementRecord :=
  { tag := tag, text := some displayText, id := id }

/-- The dict returned by `HTMLParser.analyze_html_structure`, restricted
to the keys `src/main.py` reads. -/
structure Analysis where
  interactive_elements : Option (List ElementRecord) := none
  deriving DecidableEq, Repr

/-- Outcome of the `analyze_html_structure` call: a returned analysis
dict, or a raised exception carrying `str(e)`. -/
inductive ParseOutcome where
  | ok (analysis : Analysis)
  | raise (msg : String)
  deriving DecidableEq, Repr

/-- Modelled from the spec: interpretability of raw input as HTML
(`utils/html_parser.py`, absent from `src/`).  Spec section 7 gives
empty content as the representative non-interpretable input. -/
def html_interpretable (html : String) : Bool :=
  html != ""

/-- Modelled from the spec: `HTMLParser.analyze_html_structure`
(`utils/html_parser.py`, absent from `src/`).  Spec section 7: a
ParseFailure — "input is not interpretable as HTML at all (e.g.,
empty/binary content)" — is "reported to the caller as a structured
failure; never silently produces an empty-but-successful result"; we
model the report as a raised exception reaching the handler.  On
interpretable input the classifier's interactive bucket is abstracted by
the `classified` argument. -/
def analyze_html_structure (html : String)
    (classified : List ElementRecord) : ParseOutcome :=
  if html_interpretable html then
    .ok { interactive_elements := some classified }
  else
    .raise "ParseFailure: input is not interpretable as HTML"

/-- The scenario dict built by the loop body of
`generate_test_scenarios`, `src/main.py` lines 310-322. -/
structure Scenario where
  id : String
  name : String
  description : String
  steps : List String
  expected_result : String
  priority : String
  deriving DecidableEq, Repr

/-- The loop body of `src/main.py` lines 310-322 for one element, where
`k` is the value of `len(scenarios) + 1` at the moment the dict is
built. -/
def mkScenario (e : ElementRecord) (k : Nat) : Scenario :=
  { id := "scenario_" ++ toString k
    name := "Test " ++ e.display ++ " functionality"
    description := "Verify " ++ e.display ++ " works correctly"
    steps := ["Navigate to the page",
              "Locate " ++ e.display ++ " element",
              "Interact with " ++ e.display,
              "Verify expected behavior"]
    expected_result := e.display ++ " should work as expected"
    priority := if e.truthyId then "high" else "medium" }

/-- `element['tag'] in ['button', 'input', 'a']` in `src/main.py`. -/
def qualifyingTag (e : ElementRecord) : Bool :=
  e.tag == "button" || e.tag == "input" || e.tag == "a"

/-- The `for element in analysis.get('interactive_elements', [])` loop
of `src/main.py` lines 307-323, over the interactive elements list. -/
def buildScenarios (elements : List ElementRecord) : List Scenario :=
  elements.foldl
    (fun scenarios e =>
      if qualifyingTag e then
        scenarios ++ [mkScenario e (scenarios.length + 1)]
      else scenarios)
    []

/-- The success body returned by `/generate-test-scenarios`. -/
structure ScenariosResponse where
  success : Bool
  scenarios : List Scenario
  total_scenarios : Nat
  deriving DecidableEq, Repr

/-- The `/generate-test-scenarios` handler, `src/main.py` lines 302-332.
`parse` abstracts the `analyze_html_structure` call on the request's
HTML content. -/
def generate_test_scenarios (parse : ParseOutcome) :
    HttpOutcome ScenariosResponse :=
  match parse with
  | .ok analysis =>
      let scenarios := buildScenarios (analysis.interactive_elements.getD [])
      .ok { success := true
            scenarios := scenarios
            total_scenarios := scenarios.length }
  | .raise e =>
      .httpError 500 ("Test scenario generation error: " ++ e)

/-- The success body returned by `/analyze-html`. -/
structure AnalyzeResponse where
  success : Bool
  analysis : Analysis
  deriving DecidableEq, Repr

/-- The `/analyze-html` handler, `src/main.py` lines 239-250. -/
def analyze_html (parse : ParseOutcome) : HttpOutcome AnalyzeResponse :=
  match parse with
  | .ok a => .ok { success := true, analysis := a }
  | .raise e => .httpError 500 ("HTML analysis error: " ++ e)

/-- A Python exception as observed by the `except Exception` handlers of
`src/main.py`: a FastAPI `HTTPException`, or any other exception with
its message. -/
inductive PyExc where
  | httpExc (status : Nat) (detail : String)
  | other (msg : String)
  deriving DecidableEq, Repr

/-- `str(e)` on a caught exception; starlette renders an `HTTPException`
as its status code, a colon and the detail. -/
def str_of_exc : PyExc → String
  | .httpExc status detail => toString status ++ ": " ++ detail
  | .other msg => msg

/-- The body of the `try` block of `/execute-tests`, `src/main.py`
lines 270-280: `request.get('test_cases', [])`, the emptiness guard
raising `HTTPException(400, "test_cases required")`, then the executor
call, abstracted by `run`. -/
def execute_tests_try {α β : Type} (test_cases : Option (List α))
    (run : List α → Except PyExc β) : Except PyExc β :=
  let tcs := test_cases.getD []
  if tcs.isEmpty then .error (.httpExc 400 "test_cases required")
  else run tcs

/-- The `/execute-tests` handler, `src/main.py` lines 269-283: any
exception escaping the `try` body — the `HTTPException(400)` included,
since `HTTPException` subclasses `Exception` — is caught by
`except Exception` and re-raised as `HTTPException(500)`. -/
def execute_tests {α β : Type} (test_cases : Option (List α))
    (run : List α → Except PyExc β) : HttpOutcome β :=
  match execute_tests_try test_cases run with
  | .ok r => .ok r
  | .error e => .httpError 500 ("Test execution error: " ++ str_of_exc e)

/-! ### Closed form of the scenario loop -/

/-- The scenarios the loop emits for the remaining elements when the
next emitted scenario gets number `k`. -/
def scenariosFrom (k : Nat) : List ElementRecord → List Scenario
  | [] => []
  | e :: rest =>
      if qualifyingTag e then mkScenario e k :: scenariosFrom (k + 1) rest
      else scenariosFrom k rest

theorem foldl_scenarios (elements : List ElementRecord)
    (acc : List Scenario) :
    elements.foldl
      (fun scenarios e =>
        if qualifyingTag e then
          scenarios ++ [mkScenario e (scenarios.length + 1)]
        else scenarios)
      acc
      = acc ++ scenariosFrom (acc.length + 1) elements := by
  induction elements generalizing acc with
  | nil => simp [scenariosFrom]
  | cons e rest ih =>
      cases h : qualifyingTag e with
      | true => simp [scenariosFrom, h, ih, List.append_assoc]
      | false => simp [scenariosFrom, h, ih]

theorem buildScenarios_eq (elements : List ElementRecord) :
    buildScenarios elements = scenariosFrom 1 elements := by
  simpa [buildScenarios] using foldl_scenarios elements []

theorem scenariosFrom_length (k : Nat) (l : List ElementRecord) :
    (scenariosFrom k l).length
      = (l.filter (fun e => qualifyingTag e)).length := by
  induction l generalizing k with
  | nil => rfl
  | cons e rest ih =>
      cases h : qualifyingTag e with
      | true => simp [scenariosFrom, List.filter_cons, h, ih]
      | false => simp [scenariosFrom, List.filter_cons, h, ih]

theorem scenariosFrom_get (k : Nat) (l : List ElementRecord) (i : Nat)
    (h : i < (scenariosFrom k l).length)
    (h' : i < (l.filter (fun e => qualifyingTag e)).length) :
    (scenariosFrom k l).get ⟨i, h⟩
      = mkScenario ((l.filter (fun e => qualifyingTag e)).get ⟨i, h'⟩)
          (k + i) := by
  induction l generalizing k i with
  | nil => simp [scenariosFrom] at h
  | cons e rest ih =>
      simp only [List.get_eq_getElem] at ih ⊢
      cases hq : qualifyingTag e with
      | true =>
          have hsl : scenariosFrom k (e :: rest)
              = mkScenario e k :: scenariosFrom (k + 1) rest := by
            simp [scenariosFrom, hq]
          have hfl : (e :: rest).filter (fun e => qualifyingTag e)
              = e :: rest.filter (fun e => qualifyingTag e) := by
            simp [List.filter_cons, hq]
          cases i with
          | zero => simp [hsl, hfl]
          | succ i =>
              have h1 : i < (scenariosFrom (k + 1) rest).length := by
                rw [hsl] at h
                simpa using h
              have h2 : i < (rest.filter (fun e => qualifyingTag e)).length := by
                rw [hfl] at h'
                simpa using h'
              have hrec := ih (k + 1) i h1 h2
              simp only [hsl, hfl, List.getElem_cons_succ]
              rw [hrec]
              congr 1
              omega
      | false =>
          have hsl : scenariosFrom k (e :: rest) = scenariosFrom k rest := by
            simp [scenariosFrom, hq]
          have hfl : (e :: rest).filter (fun e => qualifyingTag e)
              = rest.filter (fun e => qualifyingTag e) := by
            simp [List.filter_cons, hq]
          have h1 : i < (scenariosFrom k rest).length := by
            rw [hsl] at h
            exact h
          have h2 : i < (rest.filter (fun e => qualifyingTag e)).length := by
            rw [hfl] at h'
            exact h'
          have hrec := ih k i h1 h2
          simp only [hsl, hfl]
          exact hrec

theorem scenariosFrom_mem (k : Nat) (l : List ElementRecord)
    (s : Scenario) (hs : s ∈ scenariosFrom k l) :
    ∃ e j, e ∈ l ∧ qualifyingTag e = true ∧ s = mkScenario e j := by
  induction l generalizing k with
  | nil => simp [scenariosFrom] at hs
  | cons e rest ih =>
      cases hq : qualifyingTag e with
      | true =>
          simp only [scenariosFrom, hq, if_pos, List.mem_cons] at hs
          rcases hs with rfl | hs
          · exact ⟨e, k, List.mem_cons_self e rest, hq, rfl⟩
          · obtain ⟨e', j, he, hq', hmk⟩ := ih (k + 1) hs
            exact ⟨e', j, List.mem_cons_of_mem _ he, hq', hmk⟩
      | false =>
          simp only [scenariosFrom, hq] at hs
          obtain ⟨e', j, he, hq', hmk⟩ := ih k hs
          exact ⟨e', j, List.mem_cons_of_mem _ he, hq', hmk⟩

/-! ### Concrete sample data used to instantiate the theorems -/

/-- A concrete request used to instantiate the handler theorems. -/
def sampleRequest : XPathRequest :=
  { html_content := "<button>Go</button>", target_description := "Go" }

/-- A concrete agent result used to instantiate the handler theorems. -/
def sampleAgentResult : GenResult :=
  { xpath_locators := ["//button[1]"], confidence_scores := [] }

/-- A concrete classified-elements list used to instantiate the
scenario theorems. -/
def sampleElements : List ElementRecord :=
  [classifiedElement "button" "Go" (some "b1"),
   classifiedElement "div" "Box" none,
   classifiedElement "a" "Home" none]

/-! ### Claims -/

/-- C1 (counterexample): on a deterministic result carrying
`success = false` that was returned without an exception, with the agent
present, the fallback is not consulted — refuting the claim that the
fallback fires exactly when the generator reports `success = false` or
raises. -/
theorem generate_xpath_fallback_claim_cex :
    ¬ (((generate_xpath_run sampleRequest
            (GenOutcome.ok (noMatchResult "no strategy matched"))
            (some (AgentOutcome.ok sampleAgentResult))).2 = true)
        ↔ ((noMatchResult "no strategy matched").success = some false
            ∨ (GenOutcome.ok (noMatchResult "no strategy matched")).isRaise
                = true)) := by
  decide

/-- C1 (amended): the agent fallback is consulted exactly when the
deterministic generator raises and the agent is present; whenever the
generator returns a result — `success = false` included — that result is
shaped into the response and the agent is not consulted. -/
theorem generate_xpath_fallback_iff (request : XPathRequest)
    (g : GenOutcome) (a : Option AgentOutcome) :
    ((generate_xpath_run request g a).2 = true
        ↔ g.isRaise = true ∧ a.isSome = true)
    ∧ (∀ r, g = GenOutcome.ok r →
        generate_xpath_run request g a
          = (HttpOutcome.ok
              { xpath_locators := r.xpath_locators
                confidence_scores := r.confidence_scores
                alternative_locators := r.alternative_locators.getD []
                reasoning := r.reasoning.getD ""
                success := r.success.getD true }, false)) := by
  constructor
  · cases g with
    | ok r => simp [generate_xpath_run, GenOutcome.isRaise]
    | raise e =>
        cases a with
        | none => simp [generate_xpath_run, GenOutcome.isRaise]
        | some ac =>
            cases ac <;> simp [generate_xpath_run, GenOutcome.isRaise]
  · rintro r rfl
    rfl

/-- C1 (witness): the amended statement instantiated at a concrete
returned result with the agent absent. -/
theorem generate_xpath_fallback_iff_witness :
    generate_xpath_run sampleRequest
        (GenOutcome.ok (noMatchResult "no strategy matched")) none
      = (HttpOutcome.ok
          { xpath_locators := []
            confidence_scores := []
            alternative_locators := []
            reasoning := "no strategy matched"
            success := false }, false) := by
  have h := (generate_xpath_fallback_iff sampleRequest
      (GenOutcome.ok (noMatchResult "no strategy matched")) none).2
      (noMatchResult "no strategy matched") rfl
  simpa [noMatchResult] using h

/-- C2: a deterministic NoMatch result is returned as a normal response
with `success = false` and an empty locator list; no exception and no
HTTP error is raised. -/
theorem no_match_returned_not_raised (request : XPathRequest)
    (a : Option AgentOutcome) (reasoning : String) :
    generate_xpath request (GenOutcome.ok (noMatchResult reasoning)) a
      = HttpOutcome.ok
          { xpath_locators := []
            confidence_scores := []
            alternative_locators := []
            reasoning := reasoning
            success := false } := rfl

/-- C3: on input that is not interpretable as HTML, the analysis and the
scenario-generation handlers both report a structured HTTP 500 failure —
in particular neither returns an empty result marked successful. -/
theorem parse_failure_reported (html : String)
    (classified : List ElementRecord)
    (h : html_interpretable html = false) :
    analyze_html (analyze_html_structure html classified)
        = HttpOutcome.httpError 500
            "HTML analysis error: ParseFailure: input is not interpretable as HTML"
    ∧ generate_test_scenarios (analyze_html_structure html classified)
        = HttpOutcome.httpError 500
            "Test scenario generation error: ParseFailure: input is not interpretable as HTML" := by
  have hp : analyze_html_structure html classified
      = ParseOutcome.raise "ParseFailure: input is not interpretable as HTML" := by
    simp [analyze_html_structure, h]
  exact ⟨by rw [hp]; rfl, by rw [hp]; rfl⟩

/-- C3 (witness): the empty input, the spec's representative
non-interpretable content. -/
theorem parse_failure_reported_witness :
    analyze_html (analyze_html_structure "" [])
        = HttpOutcome.httpError 500
            "HTML analysis error: ParseFailure: input is not interpretable as HTML"
    ∧ generate_test_scenarios (analyze_html_structure "" [])
        = HttpOutcome.httpError 500
            "Test scenario generation error: ParseFailure: input is not interpretable as HTML" :=
  parse_failure_reported "" [] (by decide)

/-- C4: the number of scenarios equals the number of interactive
elements whose tag is button, input or a; and the i-th scenario's
priority is "high" exactly when the i-th qualifying element carries a
non-empty id, else "medium". -/
theorem scenario_count_and_priority (elements : List ElementRecord) :
    (buildScenarios elements).length
        = (elements.filter (fun e => qualifyingTag e)).length
    ∧ ∀ (i : Nat) (hs : i < (buildScenarios elements).length)
        (he : i < (elements.filter (fun e => qualifyingTag e)).length),
        ((buildScenarios elements).get ⟨i, hs⟩).priority
          = (if ((elements.filter (fun e => qualifyingTag e)).get
                  ⟨i, he⟩).truthyId
              then "high" else "medium") := by
  constructor
  · rw [buildScenarios_eq, scenariosFrom_length]
  · intro i hs he
    have hs1 : i < (scenariosFrom 1 elements).length := by
      rwa [buildScenarios_eq] at hs
    have hg := scenariosFrom_get 1 elements i hs1 he
    simp only [List.get_eq_getElem] at hg ⊢
    simp only [buildScenarios_eq]
    rw [hg]
    rfl

/-- C4 (witness): a button with an id yields priority "high", an anchor
without one yields "medium", and the count matches. -/
theorem scenario_count_and_priority_witness :
    (buildScenarios sampleElements).length
        = (sampleElements.filter (fun e => qualifyingTag e)).length
    ∧ ((buildScenarios sampleElements).get ⟨0, by decide⟩).priority = "high"
    ∧ ((buildScenarios sampleElements).get ⟨1, by decide⟩).priority
        = "medium" := by
  have h0 := (scenario_count_and_priority sampleElements).2 0
    (by decide) (by decide)
  have h1 := (scenario_count_and_priority sampleElements).2 1
    (by decide) (by decide)
  exact ⟨(scenario_count_and_priority sampleElements).1,
    by rw [h0]; decide, by rw [h1]; decide⟩

/-- C5 (failing input): a classified button whose display text is the
empty string.  The generated strings embed the empty display text — the
dict lookup with a default falls back only on a missing key, never on an
empty value — so the tag name "button" appears nowhere in the scenario
strings, against the documented fallback. -/
theorem scenario_empty_text_embeds_empty_not_tag :
    (buildScenarios [classifiedElement "button" "" (some "b1")]).map
        Scenario.name
      = ["Test  functionality"]
    ∧ (buildScenarios [classifiedElement "button" "" (some "b1")]).map
        Scenario.steps
      = [["Navigate to the page", "Locate  element", "Interact with ",
          "Verify expected behavior"]] := by
  decide

/-- C6: the scenario at 0-based position i (1-based rank i + 1) has
identifier "scenario_" followed by i + 1, so identifiers are sequential
with no gaps or duplicates. -/
theorem scenario_ids_sequential (elements : List ElementRecord) (i : Nat)
    (h : i < (buildScenarios elements).length) :
    ((buildScenarios elements).get ⟨i, h⟩).id
      = "scenario_" ++ toString (i + 1) := by
  have he : i < (elements.filter (fun e => qualifyingTag e)).length := by
    rw [buildScenarios_eq, scenariosFrom_length] at h
    exact h
  have hs1 : i < (scenariosFrom 1 elements).length := by
    rwa [buildScenarios_eq] at h
  have hg := scenariosFrom_get 1 elements i hs1 he
  simp only [List.get_eq_getElem] at hg ⊢
  simp only [buildScenarios_eq]
  rw [hg]
  rw [Nat.add_comm 1 i]
  rfl

/-- C6 (witness): the second emitted scenario of the sample list has
identifier "scenario_2". -/
theorem scenario_ids_sequential_witness :
    ((buildScenarios sampleElements).get ⟨1, by decide⟩).id
      = "scenario_2" := by
  have h := scenario_ids_sequential sampleElements 1 (by decide)
  rw [h]
  rfl

/-- C7: every emitted scenario's steps are the fixed four-step template
in order: navigate, locate, interact, verify. -/
theorem scenario_steps_template (elements : List ElementRecord)
    (s : Scenario) (hs : s ∈ buildScenarios elements) :
    ∃ d, s.steps
        = ["Navigate to the page", "Locate " ++ d ++ " element",
           "Interact with " ++ d, "Verify expected behavior"] := by
  rw [buildScenarios_eq] at hs
  obtain ⟨e, j, _, _, hmk⟩ := scenariosFrom_mem 1 elements s hs
  exact ⟨e.display, by rw [hmk]; rfl⟩

/-- C7 (witness): the first scenario of the sample list follows the
template. -/
theorem scenario_steps_template_witness :
    ∃ d, ((buildScenarios sampleElements).get ⟨0, by decide⟩).steps
        = ["Navigate to the page", "Locate " ++ d ++ " element",
           "Interact with " ++ d, "Verify expected behavior"] :=
  scenario_steps_template sampleElements _ (by decide)

/-- C8: when the deterministic generator raises and the agent call
returns a result, the response's success flag is true whatever the
result holds — true even when the result itself carries
`success = false`, since the flag is hard-coded at the agent return
site. -/
theorem agent_path_success_true (request : XPathRequest) (e : String)
    (r : GenResult) :
    generate_xpath request (GenOutcome.raise e)
        (some (AgentOutcome.ok r))
      = HttpOutcome.ok
          { xpath_locators := r.xpath_locators
            confidence_scores := r.confidence_scores
            alternative_locators := r.alternative_locators.getD []
            reasoning := r.reasoning.getD ""
            success := true } := rfl

/-- C9: a missing or empty test_cases list yields HTTP 500, not 400: the
HTTPException(400) raised in the try body is caught by the surrounding
generic except clause and re-wrapped as a 500 error. -/
theorem execute_tests_empty_gives_500 {α β : Type}
    (test_cases : Option (List α)) (run : List α → Except PyExc β)
    (h : (test_cases.getD []).isEmpty = true) :
    execute_tests test_cases run
      = HttpOutcome.httpError 500
          ("Test execution error: "
            ++ str_of_exc (PyExc.httpExc 400 "test_cases required")) := by
  simp [execute_tests, execute_tests_try, h]

/-- C9 (witness): the request with no test_cases key at all. -/
theorem execute_tests_empty_gives_500_witness :
    execute_tests (none : Option (List Nat))
        (fun tcs => Except.ok tcs.length)
      = HttpOutcome.httpError 500
          ("Test execution error: "
            ++ str_of_exc (PyExc.httpExc 400 "test_cases required")) :=
  execute_tests_empty_gives_500 none (fun tcs => Except.ok tcs.length) rfl

/-- C10: when the deterministic generator returns without raising, the
response is the same whatever the agent's presence or behaviour — a
two-run noninterference statement over agent availability. -/
theorem generate_xpath_agent_noninterference (request : XPathRequest)
    (r : GenResult) (a₁ a₂ : Option AgentOutcome) :
    generate_xpath request (GenOutcome.ok r) a₁
      = generate_xpath request (GenOutcome.ok r) a₂ := rfl

end XPathAgentService
